import Mathlib

/-!
Verification of the Harbor bridge OAuth subsystem
(`src/bridge-rs/src/oauth/{mod,flow,providers,server,storage}.rs`).

The Rust code is shallowly embedded: each data structure is mirrored by a
Lean structure, `HashMap` fields become functions `String → Option _`, clock
reads (`chrono::Utc::now().timestamp_millis()`) become an explicit `now : Int`
parameter, randomness (CSRF state, PKCE verifier/challenge) becomes explicit
parameters, and effectful collaborators (disk save, HTTP refresh/exchange,
JSON parsing) are passed in as function parameters returning `Except`.
-/

namespace Harbor

/-- Mirror of `OAuthProviderConfig` in `oauth/mod.rs`. -/
structure OAuthProviderConfig where
  provider_id : String
  display_name : String
  authorization_url : String
  token_url : String
  revocation_url : Option String
  pkce_enabled : Bool
deriving DecidableEq

/-- Mirror of `OAuthTokens` in `oauth/mod.rs` (`expires_at` is epoch ms). -/
structure OAuthTokens where
  access_token : String
  refresh_token : Option String
  expires_at : Option Int
  token_type : String
  scope : Option String
deriving DecidableEq

/-- Mirror of `OAuthFlowState` in `oauth/mod.rs`. -/
structure OAuthFlowState where
  state : String
  code_verifier : Option String
  provider_id : String
  server_id : String
  scopes : List String
  started_at : Int
deriving DecidableEq

/-- Mirror of `OAuthCredentials` in `oauth/mod.rs`. -/
structure OAuthCredentials where
  client_id : String
  client_secret : String
deriving DecidableEq

/-- Mirror of `google_config` in `oauth/providers.rs`. -/
def google_config : OAuthProviderConfig :=
  { provider_id := "google"
    display_name := "Google"
    authorization_url := "https://accounts.google.com/o/oauth2/v2/auth"
    token_url := "https://oauth2.googleapis.com/token"
    revocation_url := some "https://oauth2.googleapis.com/revoke"
    pkce_enabled := true }

/-- Mirror of `github_config` in `oauth/providers.rs`. -/
def github_config : OAuthProviderConfig :=
  { provider_id := "github"
    display_name := "GitHub"
    authorization_url := "https://github.com/login/oauth/authorize"
    token_url := "https://github.com/login/oauth/access_token"
    revocation_url := none
    pkce_enabled := false }

/-- Mirror of `get_provider_config` in `oauth/providers.rs`. -/
def get_provider_config (provider_id : String) : Option OAuthProviderConfig :=
  if provider_id = "google" then some google_config
  else if provider_id = "github" then some github_config
  else none

/-- The `PENDING_FLOWS` map of `oauth/mod.rs`: `HashMap<String, OAuthFlowState>`
keyed by CSRF state, embedded as a function map. -/
def PendingFlows : Type := String → Option OAuthFlowState

/-- The empty pending-flow map (the initial `HashMap::new()`). -/
def PendingFlows.empty : PendingFlows := fun _ => none

/-- Mirror of `store_pending_flow` in `oauth/mod.rs`:
`PENDING_FLOWS.write().await.insert(flow.state.clone(), flow)`. -/
def store_pending_flow (flow : OAuthFlowState) (m : PendingFlows) : PendingFlows :=
  fun k => if k = flow.state then some flow else m k

/-- Mirror of `take_pending_flow` in `oauth/mod.rs`:
`PENDING_FLOWS.write().await.remove(state)` — returns the removed flow (if any)
together with the map after removal. -/
def take_pending_flow (state : String) (m : PendingFlows) :
    Option OAuthFlowState × PendingFlows :=
  (m state, fun k => if k = state then none else m k)

/-- Mirror of `StoredTokens` in `oauth/storage.rs`. -/
structure StoredTokens where
  server_id : String
  provider : String
  tokens : OAuthTokens
  scopes : List String
  created_at : Int
  updated_at : Int
deriving DecidableEq

/-- Mirror of `TokenStore` in `oauth/storage.rs`; the `HashMap<String, StoredTokens>`
field is embedded as a function map. -/
structure TokenStore where
  tokens : String → Option StoredTokens

/-- Mirror of `TokenStore::new`. -/
def TokenStore.new : TokenStore := ⟨fun _ => none⟩

/-- Mirror of `TokenStore::get_tokens`. -/
def TokenStore.get_tokens (store : TokenStore) (server_id : String) :
    Option StoredTokens :=
  store.tokens server_id

/-- Mirror of `TokenStore::set_tokens`:
`self.tokens.insert(server_id.to_string(), tokens)`. -/
def TokenStore.set_tokens (store : TokenStore) (server_id : String)
    (st : StoredTokens) : TokenStore :=
  ⟨fun k => if k = server_id then some st else store.tokens k⟩

/-- Mirror of `TokenStore::remove_tokens`. -/
def TokenStore.remove_tokens (store : TokenStore) (server_id : String) : TokenStore :=
  ⟨fun k => if k = server_id then none else store.tokens k⟩

/-- Mirror of `TokenStore::has_tokens`. -/
def TokenStore.has_tokens (store : TokenStore) (server_id : String) : Bool :=
  (store.tokens server_id).isSome

/-- Mirror of `TokenStore::is_expired` in `oauth/storage.rs`; the clock read
`chrono::Utc::now().timestamp_millis()` is the explicit `now` parameter. -/
def is_expired (store : TokenStore) (now : Int) (server_id : String) : Bool :=
  match store.tokens server_id with
  | some stored =>
    match stored.tokens.expires_at with
    | some expires_at => decide (expires_at < now + 60000)
    | none => false
  | none => true

/-- Mirror of the constant `CALLBACK_URL` in `oauth/flow.rs`. -/
def CALLBACK_URL : String := "http://127.0.0.1:8765/oauth/callback"

/-- The authorization URL built by `start_flow` in `oauth/flow.rs`, embedded as
the base endpoint together with the list of query pairs appended through
`url.query_pairs_mut()` (in append order, before percent-encoding). -/
structure AuthUrl where
  base : String
  query : List (String × String)
deriving DecidableEq

/-- The query-pair appends performed inside `start_flow` (`oauth/flow.rs`):
client_id, redirect_uri, response_type, state, then the space-joined scopes
unless `scopes` is empty, then the PKCE pair when a challenge is present, then
the Google-specific `access_type=offline` and `prompt=consent`. -/
def build_auth_query (provider_id : String) (credentials : OAuthCredentials)
    (state : String) (scopes : List String) (code_challenge : Option String) :
    List (String × String) :=
  [("client_id", credentials.client_id),
   ("redirect_uri", CALLBACK_URL),
   ("response_type", "code"),
   ("state", state)]
  ++ (if scopes.isEmpty then [] else [("scope", String.intercalate " " scopes)])
  ++ (match code_challenge with
      | some c => [("code_challenge", c), ("code_challenge_method", "S256")]
      | none => [])
  ++ (if provider_id = "google"
      then [("access_type", "offline"), ("prompt", "consent")]
      else [])

/-- Mirror of `start_flow` in `oauth/flow.rs`. The randomness is explicit:
`state` stands for `generate_state()` and `pkce` for the
`(code_verifier, code_challenge)` pair of `generate_pkce()`; `now` stands for
the clock read stored in `started_at`. The `Url::parse` of the compiled-in
provider endpoint cannot fail for the fixed registry and is not modelled. -/
def start_flow (provider_id server_id : String) (scopes : List String)
    (credentials : OAuthCredentials) (state : String) (pkce : String × String)
    (now : Int) : Except String (AuthUrl × OAuthFlowState) :=
  match get_provider_config provider_id with
  | none => .error ("Unknown provider: " ++ provider_id)
  | some config =>
    let code_verifier : Option String :=
      if config.pkce_enabled then some pkce.1 else none
    let code_challenge : Option String :=
      if config.pkce_enabled then some pkce.2 else none
    let url : AuthUrl :=
      { base := config.authorization_url
        query := build_auth_query provider_id credentials state scopes code_challenge }
    let flow_state : OAuthFlowState :=
      { state := state
        code_verifier := code_verifier
        provider_id := provider_id
        server_id := server_id
        scopes := scopes
        started_at := now }
    .ok (url, flow_state)

/-- The query parameters of a callback request to `/oauth/callback`
(`handle_callback` in `oauth/server.rs` reads exactly these four keys). -/
structure CallbackParams where
  code : Option String
  state : Option String
  error : Option String
  error_description : Option String
deriving DecidableEq

/-- The terminal page rendered by `handle_callback` in `oauth/server.rs`,
identified by its title: `providerError` is the `error_page("Authorization
Failed", msg)` rendered for a provider-supplied `error` parameter,
`invalidRequest` the `error_page("Invalid Request", ...)`, `sessionExpired`
the `error_page("Session Expired", ...)`, `configurationError` the
`error_page("Configuration Error", ...)`, and the last two the pages rendered
after the token exchange ran. -/
inductive CallbackOutcome where
  | providerError (msg : String)
  | invalidRequest
  | sessionExpired
  | configurationError
  | exchangeSuccess
  | exchangeFailure (e : String)
deriving DecidableEq

/-- Result of one `handle_callback` invocation: the rendered outcome, the
pending-flow map afterwards, and whether a token-endpoint HTTP call
(`exchange_code`) was made. -/
structure CallbackResult where
  outcome : CallbackOutcome
  pending : PendingFlows
  exchange_called : Bool

/-- Mirror of `handle_callback` in `oauth/server.rs` up to the channel send:
provider `error` first, then the `code`/`state` requirement, then
`take_pending_flow`, then credential lookup, then the code-for-token exchange
(embedded as the function parameter `exchange`). -/
def handle_callback (params : CallbackParams) (pending : PendingFlows)
    (creds : String → Option OAuthCredentials)
    (exchange : String → OAuthFlowState → OAuthCredentials → Except String OAuthTokens) :
    CallbackResult :=
  match params.error with
  | some err =>
    { outcome := .providerError ((params.error_description).getD err)
      pending := pending
      exchange_called := false }
  | none =>
    match params.code, params.state with
    | some code, some callback_state =>
      let taken := take_pending_flow callback_state pending
      match taken.1 with
      | none =>
        { outcome := .sessionExpired, pending := taken.2, exchange_called := false }
      | some flow =>
        match creds flow.provider_id with
        | none =>
          { outcome := .configurationError, pending := taken.2, exchange_called := false }
        | some credentials =>
          match exchange code flow credentials with
          | .ok _ =>
            { outcome := .exchangeSuccess, pending := taken.2, exchange_called := true }
          | .error e =>
            { outcome := .exchangeFailure e, pending := taken.2, exchange_called := true }
    | _, _ =>
      { outcome := .invalidRequest, pending := pending, exchange_called := false }

/-- Mirror of `TokenResult` in `oauth/server.rs`. -/
structure TokenResult where
  server_id : String
  tokens : Except String OAuthTokens
  provider : String
  scopes : List String

/-- Mirror of `handle_token_result` in `oauth/server.rs`: on a successful
exchange it builds a `StoredTokens` with `created_at` and `updated_at` both
set to the current clock read and stores it; the result of `save` is only
logged, never propagated. On a failed exchange the store is untouched. -/
def handle_token_result (result : TokenResult) (store : TokenStore) (now : Int)
    (save : TokenStore → Except String Unit) : TokenStore :=
  match result.tokens with
  | .ok tokens =>
    let stored : StoredTokens :=
      { server_id := result.server_id
        provider := result.provider
        tokens := tokens
        scopes := result.scopes
        created_at := now
        updated_at := now }
    let store1 := store.set_tokens result.server_id stored
    let _saveOutcome := save store1
    store1
  | .error _ => store

/-- On-disk condition of the token file seen by `TokenStore::load`
(`oauth/storage.rs`): no home directory (`get_token_path` fails), file
missing, file unreadable, or file with some contents. -/
inductive DiskState where
  | noHome
  | missing
  | unreadable (e : String)
  | contents (s : String)

/-- Mirror of `TokenStore::load` in `oauth/storage.rs`; `parse` embeds
`serde_json::from_str::<TokenStore>`. -/
def TokenStore.load (parse : String → Except String TokenStore) :
    DiskState → Except String TokenStore
  | .noHome => .error "Could not find home directory"
  | .missing => .ok TokenStore.new
  | .unreadable e => .error ("Failed to read token file: " ++ e)
  | .contents s =>
    match parse s with
    | .ok store => .ok store
    | .error e => .error ("Failed to parse token file: " ++ e)

/-- The token-store part of `init` in `oauth/mod.rs`: `TokenStore::load()`,
falling back to `TokenStore::new()` (after logging) when loading fails. -/
def init_token_store (parse : String → Except String TokenStore)
    (disk : DiskState) : TokenStore :=
  match TokenStore.load parse disk with
  | .ok store => store
  | .error _ => TokenStore.new

/-- Mirror of `TokenStore::get_access_token` in `oauth/storage.rs`. The
collaborators are explicit: `creds` embeds `super::get_credentials`, `refresh`
embeds `super::refresh_tokens` (arguments: refresh token, provider id,
credentials), `save` embeds `self.save()`, and `now` the clock read. Returns
the `Result` together with the store afterwards (the method mutates `self`). -/
def get_access_token (store : TokenStore) (server_id : String) (now : Int)
    (creds : String → Option OAuthCredentials)
    (refresh : String → String → OAuthCredentials → Except String OAuthTokens)
    (save : TokenStore → Except String Unit) :
    Except String String × TokenStore :=
  match store.tokens server_id with
  | none => (.error ("No tokens found for server: " ++ server_id), store)
  | some stored =>
    if is_expired store now server_id then
      match stored.tokens.refresh_token with
      | some refresh_token =>
        match creds stored.provider with
        | none => (.error ("No credentials for provider: " ++ stored.provider), store)
        | some credentials =>
          match refresh refresh_token stored.provider credentials with
          | .error e => (.error e, store)
          | .ok new_tokens =>
            let updated : StoredTokens :=
              { stored with tokens := new_tokens, updated_at := now }
            let store1 := store.set_tokens server_id updated
            match save store1 with
            | .error e => (.error e, store1)
            | .ok _ => (.ok updated.tokens.access_token, store1)
      | none => (.error "Token expired and no refresh token available", store)
    else
      (.ok stored.tokens.access_token, store)

/-- Whether a byte is a UTF-8 continuation byte (`0x80..0xBF`). -/
def isUtf8ContByte (b : Nat) : Bool :=
  decide (128 ≤ b ∧ b < 192)

/-- Rust's `str::is_char_boundary` on a UTF-8 byte sequence: index 0 and the
end are boundaries; an interior index is a boundary exactly when the byte
there is not a continuation byte. -/
def is_char_boundary (bs : List Nat) (i : Nat) : Bool :=
  if i = 0 then true
  else
    match bs.get? i with
    | none => decide (i = bs.length)
    | some b => !(isUtf8ContByte b)

/-- Rust byte-range slicing `&s[..i]` on a UTF-8 string: `none` models the
panic raised when `i` is not a char boundary. -/
def byte_slice_to (bs : List Nat) (i : Nat) : Option (List Nat) :=
  if i ≤ bs.length ∧ is_char_boundary bs i then some (bs.take i) else none

/-- The preview computation of `rpc_get_credentials_status` in `oauth/mod.rs`:
`&c.client_id[..c.client_id.len().min(12)]`, on the stored client_id's UTF-8
bytes; `none` models a panic. -/
def client_id_preview (client_id : List Nat) : Option (List Nat) :=
  byte_slice_to client_id (min client_id.length 12)

/-- ASCII whitespace test covering the whitespace bytes relevant to
`str::trim` on ASCII text (the full Unicode predicate agrees with this one on
ASCII bytes, and multi-byte whitespace has only continuation bytes ≥ 0x80). -/
def isAsciiWhitespace (b : Nat) : Bool :=
  decide (b = 9 ∨ b = 10 ∨ b = 11 ∨ b = 12 ∨ b = 13 ∨ b = 32)

/-- `str::trim` on a byte sequence of ASCII text. -/
def asciiTrim (bs : List Nat) : List Nat :=
  ((bs.dropWhile isAsciiWhitespace).reverse.dropWhile isAsciiWhitespace).reverse

/-- The validation of `rpc_set_credentials` in `oauth/mod.rs`: the provider
must be "google" or "github" and the trimmed client_id and client_secret must
be non-empty; every input passing it is stored (trimmed) in the credentials
map that `rpc_get_credentials_status` later reads. -/
def rpc_set_credentials_accepts (provider : String)
    (client_id client_secret : List Nat) : Bool :=
  (provider = "google" || provider = "github")
    && !(asciiTrim client_id).isEmpty
    && !(asciiTrim client_secret).isEmpty

/-- A client_id accepted by `rpc_set_credentials` whose 13 UTF-8 bytes are
eleven `a` bytes followed by the two bytes of `é` (U+00E9): byte index 12
falls inside the final character. -/
def panickingClientId : List Nat :=
  List.replicate 11 97 ++ [195, 169]

/-! Concrete example data used by the closed instance theorems below. -/

/-- A concrete pending flow with CSRF state `"st1"`. -/
def flowEx : OAuthFlowState :=
  { state := "st1", code_verifier := none, provider_id := "github"
    server_id := "srv1", scopes := ["repo"], started_at := 0 }

/-- A concrete token set with no expiry field. -/
def tokensNoExpiry : OAuthTokens :=
  { access_token := "tokA", refresh_token := none, expires_at := none
    token_type := "Bearer", scope := none }

/-- A concrete stored record whose token set has no expiry. -/
def recNoExpiry : StoredTokens :=
  { server_id := "srv1", provider := "github", tokens := tokensNoExpiry
    scopes := ["repo"], created_at := 0, updated_at := 0 }

/-- A store holding only `recNoExpiry` under `"srv1"`. -/
def storeNoExpiry : TokenStore := TokenStore.new.set_tokens "srv1" recNoExpiry

/-- Concrete credentials. -/
def credsG : OAuthCredentials := { client_id := "cid", client_secret := "sec" }

/-- The flow state produced by `start_flow "google" "srv1" ["scope.a"]` with
state `"stG"`, PKCE pair `("ver", "chal")` and clock `0`. -/
def fsGoogleEx : OAuthFlowState :=
  { state := "stG", code_verifier := some "ver", provider_id := "google"
    server_id := "srv1", scopes := ["scope.a"], started_at := 0 }

/-- The authorization URL produced alongside `fsGoogleEx`. -/
def urlGoogleEx : AuthUrl :=
  { base := "https://accounts.google.com/o/oauth2/v2/auth"
    query := build_auth_query "google" credsG "stG" ["scope.a"] (some "chal") }

/-- Callback parameters carrying a provider-supplied `error`. -/
def paramsErrEx : CallbackParams :=
  { code := none, state := none, error := some "access_denied"
    error_description := none }

/-- Callback parameters carrying a `code` and a `state` but no `error`. -/
def paramsOkEx : CallbackParams :=
  { code := some "authcode", state := some "stX", error := none
    error_description := none }

/-- An exchange collaborator that would fail if it were ever reached. -/
def exchangeEx : String → OAuthFlowState → OAuthCredentials → Except String OAuthTokens :=
  fun _ _ _ => .error "no network"

/-- A credential lookup with no configured providers. -/
def credsNone : String → Option OAuthCredentials := fun _ => none

/-- A JSON parse collaborator that always fails (a corrupt token file). -/
def parseFailEx : String → Except String TokenStore := fun _ => .error "bad json"

/-- A fresh token set returned by a successful exchange. -/
def tokensNewEx : OAuthTokens :=
  { access_token := "newTok", refresh_token := none, expires_at := none
    token_type := "Bearer", scope := none }

/-- A prior stored record for `"srv3"` with `created_at = 5`. -/
def recOld : StoredTokens :=
  { server_id := "srv3", provider := "google", tokens := tokensNoExpiry
    scopes := ["s"], created_at := 5, updated_at := 5 }

/-- A store already holding `recOld` under `"srv3"`. -/
def storeOld : TokenStore := TokenStore.new.set_tokens "srv3" recOld

/-- A successful exchange outcome for `"srv3"` as consumed by the storage task. -/
def resultEx : TokenResult :=
  { server_id := "srv3", tokens := .ok tokensNewEx, provider := "google"
    scopes := ["s"] }

/-- A disk save that succeeds. -/
def saveOkEx : TokenStore → Except String Unit := fun _ => .ok ()

/-- A disk save that fails. -/
def saveFailEx : TokenStore → Except String Unit := fun _ => .error "disk full"

/-- An expired token set carrying a refresh token. -/
def tokensExpiredEx : OAuthTokens :=
  { access_token := "oldA", refresh_token := some "rt1", expires_at := some 0
    token_type := "Bearer", scope := none }

/-- A stored record holding `tokensExpiredEx`. -/
def recExpiredEx : StoredTokens :=
  { server_id := "srv2", provider := "google", tokens := tokensExpiredEx
    scopes := ["scope.a"], created_at := 1, updated_at := 1 }

/-- A store holding the expired record under `"srv2"`. -/
def storeExpiredEx : TokenStore := TokenStore.new.set_tokens "srv2" recExpiredEx

/-- A credential lookup that knows every provider. -/
def credsAllEx : String → Option OAuthCredentials := fun _ => some credsG

/-- A refresh collaborator returning a fixed fresh token set. -/
def refreshEx : String → String → OAuthCredentials → Except String OAuthTokens :=
  fun _ _ _ => .ok tokensNewEx

/-! Theorems. -/

/-- Characterizes a successful `start_flow`: it returns exactly the URL built
by `build_auth_query` on the registered config together with the flow state
carrying the generated state and (when PKCE is enabled) the verifier. Shared
helper for the flow-initiation claims. -/
theorem start_flow_ok_parts (pid sid : String) (scopes : List String)
    (creds : OAuthCredentials) (st : String) (pk : String × String) (now : Int)
    (cfg : OAuthProviderConfig) (url : AuthUrl) (fs : OAuthFlowState)
    (hc : get_provider_config pid = some cfg)
    (h : start_flow pid sid scopes creds st pk now = .ok (url, fs)) :
    url = { base := cfg.authorization_url
            query := build_auth_query pid creds st scopes
              (if cfg.pkce_enabled then some pk.2 else none) }
    ∧ fs = { state := st
             code_verifier := if cfg.pkce_enabled then some pk.1 else none
             provider_id := pid, server_id := sid, scopes := scopes
             started_at := now } := by
  simp only [start_flow, hc, Except.ok.injEq, Prod.mk.injEq] at h
  exact ⟨h.1.symm, h.2.symm⟩

/-- Claim C1: storing a pending flow with state `s` makes the first
`take_pending_flow s` return that flow and remove it, so a second take for the
same state returns `none`; taking a state that is absent from the map (never
stored) also returns `none` — no flow is ever matched twice. -/
theorem C1_pending_flow_single_use (m : PendingFlows) (f : OAuthFlowState)
    (s : String) (hf : f.state = s) :
    (take_pending_flow s (store_pending_flow f m)).1 = some f
    ∧ (take_pending_flow s (take_pending_flow s (store_pending_flow f m)).2).1 = none
    ∧ ∀ m0 : PendingFlows, m0 s = none → (take_pending_flow s m0).1 = none := by
  refine ⟨?_, ?_, ?_⟩
  · simp [take_pending_flow, store_pending_flow, hf]
  · simp [take_pending_flow]
  · intro m0 h0
    simpa [take_pending_flow] using h0

/-- Witness for C1 at a concrete flow and the empty map. -/
theorem C1_pending_flow_single_use_witness :
    (take_pending_flow "st1" (store_pending_flow flowEx PendingFlows.empty)).1 = some flowEx
    ∧ (take_pending_flow "st1"
        (take_pending_flow "st1" (store_pending_flow flowEx PendingFlows.empty)).2).1 = none
    ∧ (take_pending_flow "st1" PendingFlows.empty).1 = none :=
  have h := C1_pending_flow_single_use PendingFlows.empty flowEx "st1" rfl
  ⟨h.1, h.2.1, h.2.2 PendingFlows.empty rfl⟩

/-- Claim C2: `is_expired` is true exactly when no record exists for the
server, or the record's `expires_at` is present and lies within 60,000 ms of
the current time; it is false whenever a record exists whose `expires_at` is
absent. -/
theorem C2_is_expired_characterization (store : TokenStore) (now : Int)
    (sid : String) :
    (is_expired store now sid = true ↔
      store.tokens sid = none ∨
        ∃ rec e, store.tokens sid = some rec
          ∧ rec.tokens.expires_at = some e ∧ e < now + 60000)
    ∧ ∀ rec, store.tokens sid = some rec → rec.tokens.expires_at = none →
        is_expired store now sid = false := by
  constructor
  · cases h : store.tokens sid with
    | none => simp [is_expired, h]
    | some rec =>
      cases he : rec.tokens.expires_at with
      | none => simp [is_expired, h, he]
      | some e => simp [is_expired, h, he]
  · intro rec h he
    simp [is_expired, h, he]

/-- Witness for C2: a record without expiry is never expired; an absent record
reports expired. -/
theorem C2_is_expired_characterization_witness :
    is_expired storeNoExpiry 100 "srv1" = false
    ∧ is_expired TokenStore.new 100 "missing" = true :=
  ⟨(C2_is_expired_characterization storeNoExpiry 100 "srv1").2 recNoExpiry
      (by decide) rfl,
    (C2_is_expired_characterization TokenStore.new 100 "missing").1.mpr
      (Or.inl rfl)⟩

/-- Claim C3: for every registered provider, the flow state returned by
`start_flow` carries a `code_verifier` if and only if the provider's config
has `pkce_enabled = true`; for the fixed registry the verifier is present for
"google" and absent for "github". -/
theorem C3_code_verifier_iff_pkce (pid sid : String) (scopes : List String)
    (creds : OAuthCredentials) (st : String) (pk : String × String) (now : Int)
    (cfg : OAuthProviderConfig) (url : AuthUrl) (fs : OAuthFlowState)
    (hc : get_provider_config pid = some cfg)
    (h : start_flow pid sid scopes creds st pk now = .ok (url, fs)) :
    fs.code_verifier.isSome = cfg.pkce_enabled
    ∧ (pid = "google" → fs.code_verifier = some pk.1)
    ∧ (pid = "github" → fs.code_verifier = none) := by
  obtain ⟨-, hfs⟩ := start_flow_ok_parts pid sid scopes creds st pk now cfg url fs hc h
  subst hfs
  refine ⟨?_, ?_, ?_⟩
  · cases hp : cfg.pkce_enabled <;> simp [hp]
  · intro hg
    subst hg
    have hcg : get_provider_config "google" = some google_config := by decide
    have : cfg = google_config := by
      have := hc.symm.trans hcg
      exact (Option.some.injEq _ _ ▸ this)
    subst this
    simp [google_config]
  · intro hg
    subst hg
    have hcg : get_provider_config "github" = some github_config := by decide
    have : cfg = github_config := by
      have := hc.symm.trans hcg
      exact (Option.some.injEq _ _ ▸ this)
    subst this
    simp [github_config]

/-- Witness for C3 at the concrete Google flow. -/
theorem C3_code_verifier_iff_pkce_witness :
    fsGoogleEx.code_verifier.isSome = google_config.pkce_enabled
    ∧ fsGoogleEx.code_verifier = some "ver" :=
  have h := C3_code_verifier_iff_pkce "google" "srv1" ["scope.a"] credsG "stG"
    ("ver", "chal") 0 google_config urlGoogleEx fsGoogleEx (by decide) rfl
  ⟨h.1, h.2.1 rfl⟩

/-- Claim C4: the authorization URL built by `start_flow` for a registered
provider contains the query pairs client_id, the fixed local redirect URI,
response_type=code, the generated state, and the space-joined scope list (the
scope parameter is omitted exactly when the scope list is empty); when PKCE is
active it additionally contains code_challenge and code_challenge_method=S256,
and for "google" it additionally contains access_type=offline and
prompt=consent. -/
theorem C4_auth_url_query (pid sid : String) (scopes : List String)
    (creds : OAuthCredentials) (st : String) (pk : String × String) (now : Int)
    (cfg : OAuthProviderConfig) (url : AuthUrl) (fs : OAuthFlowState)
    (hc : get_provider_config pid = some cfg)
    (h : start_flow pid sid scopes creds st pk now = .ok (url, fs)) :
    ("client_id", creds.client_id) ∈ url.query
    ∧ ("redirect_uri", CALLBACK_URL) ∈ url.query
    ∧ ("response_type", "code") ∈ url.query
    ∧ ("state", st) ∈ url.query
    ∧ (scopes ≠ [] → ("scope", String.intercalate " " scopes) ∈ url.query)
    ∧ (scopes = [] → "scope" ∉ url.query.map Prod.fst)
    ∧ (cfg.pkce_enabled = true →
        ("code_challenge", pk.2) ∈ url.query
          ∧ ("code_challenge_method", "S256") ∈ url.query)
    ∧ (pid = "google" →
        ("access_type", "offline") ∈ url.query
          ∧ ("prompt", "consent") ∈ url.query) := by
  obtain ⟨hurl, -⟩ := start_flow_ok_parts pid sid scopes creds st pk now cfg url fs hc h
  subst hurl
  refine ⟨?_, ?_, ?_, ?_, ?_, ?_, ?_, ?_⟩
  · simp [build_auth_query]
  · simp [build_auth_query]
  · simp [build_auth_query]
  · simp [build_auth_query]
  · intro hne
    cases scopes with
    | nil => exact absurd rfl hne
    | cons a l => simp [build_auth_query]
  · intro hnil
    subst hnil
    cases hp : cfg.pkce_enabled <;> by_cases hg : pid = "google" <;>
      simp [build_auth_query, hp, hg]
  · intro hp
    simp [build_auth_query, hp]
  · intro hg
    subst hg
    simp [build_auth_query]

/-- Witness for C4 at the concrete Google flow. -/
theorem C4_auth_url_query_witness :
    ("client_id", "cid") ∈ urlGoogleEx.query
    ∧ ("state", "stG") ∈ urlGoogleEx.query
    ∧ ("scope", "scope.a") ∈ urlGoogleEx.query
    ∧ ("code_challenge", "chal") ∈ urlGoogleEx.query
    ∧ ("code_challenge_method", "S256") ∈ urlGoogleEx.query
    ∧ ("access_type", "offline") ∈ urlGoogleEx.query
    ∧ ("prompt", "consent") ∈ urlGoogleEx.query :=
  have h := C4_auth_url_query "google" "srv1" ["scope.a"] credsG "stG"
    ("ver", "chal") 0 google_config urlGoogleEx fsGoogleEx (by decide) rfl
  have hp := h.2.2.2.2.2.2.1 rfl
  have hgo := h.2.2.2.2.2.2.2 rfl
  ⟨h.1, h.2.2.2.1, h.2.2.2.2.1 (by decide), hp.1, hp.2, hgo.1, hgo.2⟩

/-- Claim C5: on a callback request, a provider-supplied `error` renders a
failure outcome with the pending-flow map unchanged and no token-endpoint
call; a missing `code` or `state` renders the invalid-request failure with no
map mutation and no call; and a `state` absent from the pending map renders
the session-expired failure (a distinct outcome from invalid-request) with no
token-endpoint call. -/
theorem C5_callback_guards (params : CallbackParams) (pending : PendingFlows)
    (creds : String → Option OAuthCredentials)
    (exchange : String → OAuthFlowState → OAuthCredentials → Except String OAuthTokens) :
    (∀ e, params.error = some e →
      (handle_callback params pending creds exchange).outcome
          = .providerError ((params.error_description).getD e)
        ∧ (handle_callback params pending creds exchange).pending = pending
        ∧ (handle_callback params pending creds exchange).exchange_called = false)
    ∧ (params.error = none → (params.code = none ∨ params.state = none) →
        (handle_callback params pending creds exchange).outcome = .invalidRequest
          ∧ (handle_callback params pending creds exchange).pending = pending
          ∧ (handle_callback params pending creds exchange).exchange_called = false)
    ∧ (∀ c s, params.error = none → params.code = some c → params.state = some s →
        pending s = none →
        (handle_callback params pending creds exchange).outcome = .sessionExpired
          ∧ (handle_callback params pending creds exchange).exchange_called = false)
    ∧ CallbackOutcome.sessionExpired ≠ CallbackOutcome.invalidRequest := by
  obtain ⟨pc, ps, pe, ped⟩ := params
  refine ⟨?_, ?_, ?_, by decide⟩
  · intro e he
    cases he
    simp [handle_callback]
  · intro he hcs
    cases he
    rcases hcs with h | h
    · cases h
      simp [handle_callback]
    · cases h
      cases pc <;> simp [handle_callback]
  · intro c s he hc hs hp
    cases he; cases hc; cases hs
    simp [handle_callback, take_pending_flow, hp]

/-- Witness for C5: a provider error and an unknown state, both at concrete
inputs. -/
theorem C5_callback_guards_witness :
    ((handle_callback paramsErrEx PendingFlows.empty credsNone exchangeEx).outcome
        = .providerError "access_denied"
      ∧ (handle_callback paramsErrEx PendingFlows.empty credsNone exchangeEx).exchange_called
        = false)
    ∧ ((handle_callback paramsOkEx PendingFlows.empty credsNone exchangeEx).outcome
        = .sessionExpired
      ∧ (handle_callback paramsOkEx PendingFlows.empty credsNone exchangeEx).exchange_called
        = false) :=
  have h1 := (C5_callback_guards paramsErrEx PendingFlows.empty credsNone exchangeEx).1
    "access_denied" rfl
  have h3 := (C5_callback_guards paramsOkEx PendingFlows.empty credsNone exchangeEx).2.2.1
    "authcode" "stX" rfl rfl rfl rfl
  ⟨⟨h1.1, h1.2.2⟩, ⟨h3.1, h3.2⟩⟩

/-- Claim C6: loading the token store is best-effort — a missing token file
yields an empty store, a file whose contents fail to parse is treated as an
empty store, and every load failure is converted to the empty store, so
initialization never hard-fails. -/
theorem C6_load_best_effort (parse : String → Except String TokenStore) :
    TokenStore.load parse .missing = .ok TokenStore.new
    ∧ init_token_store parse .missing = TokenStore.new
    ∧ (∀ c e, parse c = .error e →
        init_token_store parse (.contents c) = TokenStore.new)
    ∧ (∀ disk e, TokenStore.load parse disk = .error e →
        init_token_store parse disk = TokenStore.new) := by
  refine ⟨rfl, rfl, ?_, ?_⟩
  · intro c e h
    simp [init_token_store, TokenStore.load, h]
  · intro disk e h
    simp [init_token_store, h]

/-- Witness for C6: a corrupt file under an always-failing parser, and a
missing file. -/
theorem C6_load_best_effort_witness :
    init_token_store parseFailEx (.contents "garbage") = TokenStore.new
    ∧ init_token_store parseFailEx .missing = TokenStore.new :=
  ⟨(C6_load_best_effort parseFailEx).2.2.1 "garbage" "bad json" rfl,
    (C6_load_best_effort parseFailEx).2.1⟩

/-- Counterexample for C7 as stated: with a prior record for "srv3" whose
`created_at` is 5, the record written by `handle_token_result` at clock 100
has `created_at = 100`, not the preserved 5 the claim requires. -/
theorem C7_created_at_counterexample :
    (storeOld.tokens "srv3").map StoredTokens.created_at = some 5
    ∧ ((handle_token_result resultEx storeOld 100 saveOkEx).tokens "srv3").map
        StoredTokens.created_at = some 100
    ∧ ¬ (((handle_token_result resultEx storeOld 100 saveOkEx).tokens "srv3").map
        StoredTokens.created_at = some 5) := by
  refine ⟨by decide, by decide, by decide⟩

/-- Claim C7 (amended): on a successful token-exchange outcome the stored
record for the server has `created_at = now` and `updated_at = now`
unconditionally — `created_at` is not preserved from a prior record — and the
outcome of the disk save does not affect the resulting store (a failed save is
only logged). -/
theorem C7_token_result_created_at_now (r : TokenResult) (store : TokenStore)
    (now : Int) (save save' : TokenStore → Except String Unit)
    (tok : OAuthTokens) (h : r.tokens = .ok tok) :
    (handle_token_result r store now save).tokens r.server_id
        = some { server_id := r.server_id, provider := r.provider, tokens := tok
                 scopes := r.scopes, created_at := now, updated_at := now }
    ∧ handle_token_result r store now save = handle_token_result r store now save' := by
  constructor
  · simp [handle_token_result, h, TokenStore.set_tokens]
  · simp [handle_token_result, h]

/-- Witness for the amended C7 at the concrete result and store. -/
theorem C7_token_result_created_at_now_witness :
    (handle_token_result resultEx storeOld 100 saveFailEx).tokens "srv3"
        = some { server_id := "srv3", provider := "google", tokens := tokensNewEx
                 scopes := ["s"], created_at := 100, updated_at := 100 }
    ∧ handle_token_result resultEx storeOld 100 saveFailEx
        = handle_token_result resultEx storeOld 100 saveOkEx :=
  have h := C7_token_result_created_at_now resultEx storeOld 100 saveFailEx saveOkEx
    tokensNewEx rfl
  ⟨h.1, h.2⟩

/-- Claim C9: in `get_access_token`, when the stored tokens are expired, a
refresh token and credentials are available, the refresh succeeds but the
subsequent disk save fails, the call returns the save error while the store
already holds the refreshed token set with `updated_at` advanced — the
mutation is not rolled back on error. -/
theorem C9_save_failure_not_rolled_back (store : TokenStore) (sid : String)
    (now : Int) (creds : String → Option OAuthCredentials)
    (refresh : String → String → OAuthCredentials → Except String OAuthTokens)
    (stored : StoredTokens) (rt : String) (c : OAuthCredentials)
    (newTok : OAuthTokens) (e : String)
    (h1 : store.tokens sid = some stored)
    (h2 : is_expired store now sid = true)
    (h3 : stored.tokens.refresh_token = some rt)
    (h4 : creds stored.provider = some c)
    (h5 : refresh rt stored.provider c = .ok newTok) :
    (get_access_token store sid now creds refresh (fun _ => .error e)).1 = .error e
    ∧ (get_access_token store sid now creds refresh (fun _ => .error e)).2.tokens sid
        = some { stored with tokens := newTok, updated_at := now } := by
  constructor <;>
    simp [get_access_token, h1, h2, h3, h4, h5, TokenStore.set_tokens]

/-- Witness for C9 at a concrete expired record with a failing save. -/
theorem C9_save_failure_not_rolled_back_witness :
    (get_access_token storeExpiredEx "srv2" 100000 credsAllEx refreshEx saveFailEx).1
        = .error "disk full"
    ∧ (get_access_token storeExpiredEx "srv2" 100000 credsAllEx refreshEx
        saveFailEx).2.tokens "srv2"
        = some { recExpiredEx with tokens := tokensNewEx, updated_at := 100000 } :=
  C9_save_failure_not_rolled_back storeExpiredEx "srv2" 100000 credsAllEx refreshEx
    recExpiredEx "rt1" credsG tokensNewEx "disk full" (by decide) (by decide) rfl rfl rfl

/-- Claim C10 (refuted, code bug): the client_id `"aaaaaaaaaaaé"` — eleven
`a` bytes followed by the two UTF-8 bytes of `é` — passes the
`rpc_set_credentials` validation unchanged by trimming, yet the
`client_id_preview` byte slice of `rpc_get_credentials_status` at index
`min(len, 12) = 12` lands inside the final character and panics (`none`). -/
theorem C10_preview_panics_on_multibyte :
    rpc_set_credentials_accepts "google" panickingClientId [115] = true
    ∧ asciiTrim panickingClientId = panickingClientId
    ∧ client_id_preview (asciiTrim panickingClientId) = none := by
  refine ⟨by decide, by decide, by decide⟩

end Harbor
